import Mathlib

/-!
Verification of the dual-mode persistence and synchronization layer of the
ops-status application (src/app/page.tsx).

The embedding below translates the source file's data model and logic:
* record types `WarehouseT` / `VesselT` (timestamps: ISO date strings are
  modelled as natural-number clock values; tonnage values as exact rationals),
* the utility `pct`,
* the configuration helpers (`loadFirebaseConfig`),
* the remote-collection path convention (`colRefs` and the document paths
  built inline by `updateWarehouse` / `updateVessel` / the healthcheck test),
* the Firestore-backed remote store (`Remote`, `addDocW`, `updateDocW`, ...):
  `addDoc` appends a document under a server-assigned fresh id and returns
  that id; `updateDoc` / `deleteDoc` address a document by id,
* the gateway CRUD functions, split into their demo (local) branch and their
  cloud branch exactly as in the source,
* the event-driven `App` component as a state machine `step` over `AppState`,
  with React's demo-persistence effect (`useEffect` at page.tsx:143-147)
  applied after every event (`persistDemo`); the effect only fires when
  `mode`/`warehouses`/`vessels` changed, but it is idempotent on states where
  the local store already mirrors the in-memory collections, so applying it
  after every event agrees with React's scheduling on all reachable states.
-/

namespace OpsStatus

/-- Status enum of a storage facility (page.tsx `WarehouseT.status`). -/
inductive WStatus
  | ok
  | full
  | critical
  | closed
deriving DecidableEq, Repr

/-- Status enum of a vessel (page.tsx `VesselT.status`). -/
inductive VStatus
  | atSea
  | loading
  | discharging
  | anchored
  | delayed
deriving DecidableEq, Repr

/-- A full warehouse record (page.tsx `WarehouseT`).  The ISO date string
`lastUpdate` is modelled as a natural-number clock value. -/
structure WarehouseT where
  id : String
  name : String
  location : String
  capacityTons : ℚ
  usedTons : ℚ
  status : WStatus
  lastUpdate : Nat
deriving DecidableEq, Repr

/-- A warehouse draft, `Omit<WarehouseT, "id">`: what `createWarehouse`
receives and what a Firestore warehouse document stores. -/
structure WDraft where
  name : String
  location : String
  capacityTons : ℚ
  usedTons : ℚ
  status : WStatus
  lastUpdate : Nat
deriving DecidableEq, Repr

/-- Attach an id to a warehouse draft (the spread `{ id, ...data }`). -/
def WDraft.withId (d : WDraft) (id : String) : WarehouseT :=
  { id := id, name := d.name, location := d.location,
    capacityTons := d.capacityTons, usedTons := d.usedTons,
    status := d.status, lastUpdate := d.lastUpdate }

/-- Forget the id of a warehouse record (the spread `{ ...w }` written into a
Firestore document, whose identity is the document id). -/
def WarehouseT.toDraft (w : WarehouseT) : WDraft :=
  { name := w.name, location := w.location, capacityTons := w.capacityTons,
    usedTons := w.usedTons, status := w.status, lastUpdate := w.lastUpdate }

/-- A full vessel record (page.tsx `VesselT`).  The optional ISO date `eta`
is modelled as an optional natural-number clock value. -/
structure VesselT where
  id : String
  name : String
  cargo : String
  tonnage : ℚ
  status : VStatus
  etaPort : Option String
  eta : Option Nat
  lastPosition : Option String
deriving DecidableEq, Repr

/-- A vessel draft, `Omit<VesselT, "id">`. -/
structure VDraft where
  name : String
  cargo : String
  tonnage : ℚ
  status : VStatus
  etaPort : Option String
  eta : Option Nat
  lastPosition : Option String
deriving DecidableEq, Repr

/-- Attach an id to a vessel draft. -/
def VDraft.withId (d : VDraft) (id : String) : VesselT :=
  { id := id, name := d.name, cargo := d.cargo, tonnage := d.tonnage,
    status := d.status, etaPort := d.etaPort, eta := d.eta,
    lastPosition := d.lastPosition }

/-- Forget the id of a vessel record. -/
def VesselT.toDraft (v : VesselT) : VDraft :=
  { name := v.name, cargo := v.cargo, tonnage := v.tonnage,
    status := v.status, etaPort := v.etaPort, eta := v.eta,
    lastPosition := v.lastPosition }

/-- JavaScript `Math.round`: round half toward positive infinity. -/
def jsRound (x : ℚ) : ℤ := ⌊x + 1 / 2⌋

/-- page.tsx:46, capacity utilization:
`pct = (used, cap) => Math.min(100, Math.round((used / Math.max(cap, 1)) * 100))`
(numbers modelled as exact rationals). -/
def pct (used cap : ℚ) : ℤ := min 100 (jsRound (used / max cap 1 * 100))

/-- page.tsx:49-60 `SAMPLE_DATA.warehouses`; the `new Date().toISOString()`
stamps are the module-load time `bootTime`. -/
def SAMPLE_warehouses (bootTime : Nat) : List WarehouseT :=
  [ { id := "w1", name := "Caspian Port – Main Silo", location := "Anzali",
      capacityTons := 30000, usedTons := 18250, status := WStatus.ok,
      lastUpdate := bootTime },
    { id := "w2", name := "Caspian Port – Shed B", location := "Amirabad",
      capacityTons := 8000, usedTons := 7800, status := WStatus.full,
      lastUpdate := bootTime },
    { id := "w3", name := "ARIB Yard", location := "Astrakhan",
      capacityTons := 12000, usedTons := 10800, status := WStatus.critical,
      lastUpdate := bootTime } ]

/-- page.tsx:55-59 `SAMPLE_DATA.vessels` (ETAs are offsets in milliseconds
from the module-load time, as in the source). -/
def SAMPLE_vessels (bootTime : Nat) : List VesselT :=
  [ { id := "v1", name := "OMSKIY-128", cargo := "Corn", tonnage := 3000,
      status := VStatus.anchored, etaPort := some "Astrakhan",
      eta := some (bootTime + 36 * 3600 * 1000),
      lastPosition := some "Volga delta anchorage" },
    { id := "v2", name := "OMSKIY-131", cargo := "Clinker", tonnage := 3500,
      status := VStatus.discharging, etaPort := some "Caspian Port",
      eta := some (bootTime + 12 * 3600 * 1000),
      lastPosition := some "Berth CP-02" },
    { id := "v3", name := "OMSKIY-86", cargo := "Cement in Big Bags",
      tonnage := 2500, status := VStatus.atSea, etaPort := some "Astrakhan",
      eta := some (bootTime + 72 * 3600 * 1000),
      lastPosition := some "Caspian mid-lane" } ]

/-- The backend connection descriptor, page.tsx `FirebaseConfig` together
with the `orgKey` field that `loadFirebaseConfig` always returns with it. -/
structure FirebaseConfig where
  apiKey : String
  authDomain : String
  projectId : String
  orgKey : String
deriving DecidableEq, Repr

/-- page.tsx:66-76 `loadFirebaseConfig`: an injected global configuration
(`window.__FIREBASE`) takes precedence; otherwise the persisted copy under
`CFG_KEY` is used; otherwise there is no configuration. -/
def loadFirebaseConfig (injected persisted : Option FirebaseConfig) :
    Option FirebaseConfig :=
  match injected with
  | some c => some c
  | none => persisted

/-- page.tsx:89-95 `colRefs`: the three per-tenant collection paths
(warehouses, vessels, healthchecks). -/
def colRefs (orgKey : String) : String × String × String :=
  ("orgs/" ++ orgKey ++ "/warehouses",
   "orgs/" ++ orgKey ++ "/vessels",
   "orgs/" ++ orgKey ++ "/healthchecks")

/-- page.tsx:193/198: the per-document path used by the cloud branches of
`updateWarehouse` and `deleteWarehouse`. -/
def warehouseDocPath (orgKey docId : String) : String :=
  "orgs/" ++ orgKey ++ "/warehouses/" ++ docId

/-- page.tsx:210/215: the per-document path used by the cloud branches of
`updateVessel` and `deleteVessel`. -/
def vesselDocPath (orgKey docId : String) : String :=
  "orgs/" ++ orgKey ++ "/vessels/" ++ docId

/-- page.tsx:586: the per-document path read back by the healthcheck
connectivity test. -/
def healthcheckDocPath (orgKey docId : String) : String :=
  "orgs/" ++ orgKey ++ "/healthchecks/" ++ docId

/-- The remote (Firestore) record store for the active tenant: the two
per-tenant record collections as association lists from server-assigned
document id to document data, plus the server's fresh-id source. -/
structure Remote where
  nextId : Nat
  warehousesCol : List (String × WDraft)
  vesselsCol : List (String × VDraft)
deriving DecidableEq, Repr

/-- The server-assigned document id drawn from the fresh-id source. -/
def freshDocId (n : Nat) : String := "doc" ++ toString n

/-- Firestore `addDoc` on the warehouses collection: stores the data under a
fresh server-assigned id and returns that id to the caller. -/
def addDocW (r : Remote) (data : WDraft) : Remote × String :=
  ({ r with nextId := r.nextId + 1,
            warehousesCol := r.warehousesCol ++ [(freshDocId r.nextId, data)] },
   freshDocId r.nextId)

/-- Firestore `updateDoc` on a warehouse document path: overwrites the data
of the document with the given id; a missing id leaves the store unchanged
(the real call rejects, and a rejected remote mutation has no effect). -/
def updateDocW (r : Remote) (docId : String) (data : WDraft) : Remote :=
  { r with warehousesCol :=
      r.warehousesCol.map (fun p => if p.1 = docId then (docId, data) else p) }

/-- Firestore `deleteDoc` on a warehouse document path. -/
def deleteDocW (r : Remote) (docId : String) : Remote :=
  { r with warehousesCol := r.warehousesCol.filter (fun p => p.1 != docId) }

/-- Firestore `addDoc` on the vessels collection. -/
def addDocV (r : Remote) (data : VDraft) : Remote × String :=
  ({ r with nextId := r.nextId + 1,
            vesselsCol := r.vesselsCol ++ [(freshDocId r.nextId, data)] },
   freshDocId r.nextId)

/-- Firestore `updateDoc` on a vessel document path. -/
def updateDocV (r : Remote) (docId : String) (data : VDraft) : Remote :=
  { r with vesselsCol :=
      r.vesselsCol.map (fun p => if p.1 = docId then (docId, data) else p) }

/-- Firestore `deleteDoc` on a vessel document path. -/
def deleteDocV (r : Remote) (docId : String) : Remote :=
  { r with vesselsCol := r.vesselsCol.filter (fun p => p.1 != docId) }

/-- The data of the warehouse document with the given id, if present. -/
def lookupW (r : Remote) (docId : String) : Option WDraft :=
  (r.warehousesCol.find? (fun p => p.1 == docId)).map Prod.snd

/-- The data of the vessel document with the given id, if present. -/
def lookupV (r : Remote) (docId : String) : Option VDraft :=
  (r.vesselsCol.find? (fun p => p.1 == docId)).map Prod.snd

/-- page.tsx:180, `createWarehouse`, demo branch:
`setWarehouses(p => [{ ...w, id: crypto.randomUUID(), lastUpdate: now }, ...p])`.
`now` is the current clock value, `newId` the generated UUID. -/
def createWarehouseDemo (now : Nat) (newId : String) (w : WDraft)
    (p : List WarehouseT) : List WarehouseT :=
  { w.withId newId with lastUpdate := now } :: p

/-- page.tsx:189, `updateWarehouse`, demo branch:
`setWarehouses(p => p.map(x => x.id === w.id ? { ...w, lastUpdate: now } : x))`. -/
def updateWarehouseDemo (now : Nat) (w : WarehouseT)
    (p : List WarehouseT) : List WarehouseT :=
  p.map (fun x => if x.id = w.id then { w with lastUpdate := now } else x)

/-- page.tsx:196, `deleteWarehouse`, demo branch:
`setWarehouses(p => p.filter(x => x.id !== id))`. -/
def deleteWarehouseDemo (id : String) (p : List WarehouseT) : List WarehouseT :=
  p.filter (fun x => x.id != id)

/-- page.tsx:202, `createVessel`, demo branch:
`setVessels(p => [{ ...v, id: crypto.randomUUID() }, ...p])` (no `lastUpdate`
refresh: vessels have no such field). -/
def createVesselDemo (newId : String) (v : VDraft)
    (p : List VesselT) : List VesselT :=
  v.withId newId :: p

/-- page.tsx:208, `updateVessel`, demo branch:
`setVessels(p => p.map(x => x.id === v.id ? { ...v } : x))`. -/
def updateVesselDemo (v : VesselT) (p : List VesselT) : List VesselT :=
  p.map (fun x => if x.id = v.id then v else x)

/-- page.tsx:213, `deleteVessel`, demo branch. -/
def deleteVesselDemo (id : String) (p : List VesselT) : List VesselT :=
  p.filter (fun x => x.id != id)

/-- page.tsx:183-185, `createWarehouse`, cloud branch:
`await addDoc(W, { ...w, lastUpdate: now, createdAt: serverTimestamp() })`.
The second component is the value the gateway function returns to its caller:
the TypeScript function body has no `return` of a value on this path
(its result is `undefined`), so the `addDoc` document reference — and with it
the server-assigned id — is discarded, which `none` records. -/
def createWarehouseCloud (now : Nat) (r : Remote) (w : WDraft) :
    Remote × Option String :=
  ((addDocW r { w with lastUpdate := now }).1, none)

/-- page.tsx:192-193, `updateWarehouse`, cloud branch:
`await updateDoc(doc(db, warehouseDocPath orgKey w.id), { ...w, lastUpdate: now })`.
(The spread also stores the record's own `id` field inside the document data;
the snapshot mapping `{ id: d.id, ...d.data() }` makes that copy override
`d.id`, but along every reachable write the two ids coincide, so document
data is modelled without the redundant id copy.) -/
def updateWarehouseCloud (now : Nat) (r : Remote) (w : WarehouseT) : Remote :=
  updateDocW r w.id { w.toDraft with lastUpdate := now }

/-- page.tsx:198, `deleteWarehouse`, cloud branch. -/
def deleteWarehouseCloud (r : Remote) (id : String) : Remote :=
  deleteDocW r id

/-- page.tsx:204-205, `createVessel`, cloud branch: as for warehouses, the
`addDoc` reference is discarded and the function returns no value. -/
def createVesselCloud (r : Remote) (v : VDraft) : Remote × Option String :=
  ((addDocV r v).1, none)

/-- page.tsx:210, `updateVessel`, cloud branch. -/
def updateVesselCloud (r : Remote) (v : VesselT) : Remote :=
  updateDocV r v.id v.toDraft

/-- page.tsx:215, `deleteVessel`, cloud branch. -/
def deleteVesselCloud (r : Remote) (id : String) : Remote :=
  deleteDocV r id

/-- page.tsx:42 `Mode`: `demo` is the Local regime, `cloud` the Shared one. -/
inductive Mode
  | demo
  | cloud
deriving DecidableEq, Repr

/-- The state of the `App` component together with its external stores:
the React state variables `mode`, `warehouses`, `vessels`, `user` (kept as a
presence flag: the identity itself is opaque), the `localStorage` slots
`LS_KEY` (`localStore`) and `CFG_KEY` (`cfgStore`), the injected
`window.__FIREBASE` override, whether the boot effect registered the
`onAuthStateChanged` watcher (`watcherActive`), whether the `db`/`auth`
handles are set (`fbReady`), the active `orgKey`, and the remote store. -/
structure AppState where
  mode : Mode
  warehouses : List WarehouseT
  vessels : List VesselT
  localStore : Option (List WarehouseT × List VesselT)
  cfgStore : Option FirebaseConfig
  injected : Option FirebaseConfig
  user : Bool
  watcherActive : Bool
  fbReady : Bool
  orgKey : String
  remote : Remote
deriving DecidableEq, Repr

/-- The demo-persistence effect, page.tsx:143-147: whenever the regime is
`demo`, re-serialize both in-memory collections into the `LS_KEY` slot. -/
def persistDemo (s : AppState) : AppState :=
  if s.mode = Mode.demo then
    { s with localStore := some (s.warehouses, s.vessels) }
  else s

/-- page.tsx:340-341 (the settings-dialog close handler): re-run
`ensureFirebase` and, if a configuration is now present, refresh the
`db`/`auth` handles and the active `orgKey`. -/
def applySettingsClosed (s : AppState) : AppState :=
  match loadFirebaseConfig s.injected s.cfgStore with
  | some cfg => { s with fbReady := true, orgKey := cfg.orgKey }
  | none => s

/-- The boot effect, page.tsx:111-140: load the demo data from `LS_KEY`
(falling back to the built-in sample set), and if a configuration is present
initialize Firebase and register the auth watcher; the regime starts as
`demo` unconditionally.  The mount-time run of the demo-persistence effect
is applied at the end. -/
def boot (bootTime : Nat) (saved : Option (List WarehouseT × List VesselT))
    (persisted injected : Option FirebaseConfig) (r0 : Remote) : AppState :=
  let data := saved.getD (SAMPLE_warehouses bootTime, SAMPLE_vessels bootTime)
  let cfg := loadFirebaseConfig injected persisted
  persistDemo
    { mode := Mode.demo, warehouses := data.1, vessels := data.2,
      localStore := saved, cfgStore := persisted, injected := injected,
      user := false, watcherActive := cfg.isSome, fbReady := cfg.isSome,
      orgKey := (cfg.map (fun c => c.orgKey)).getD "default", remote := r0 }

/-- The asynchronous events serialized onto the single UI thread:
auth-watcher callbacks, the sign-in/out buttons, settings-dialog actions,
remote snapshot deliveries, and the gateway CRUD calls.  CRUD events carry
the clock value and generated UUID that the handler would draw. -/
inductive Ev
  | authChanged (signedIn : Bool)
  | signInClick
  | signOutClick
  | settingsSave (cfg : FirebaseConfig)
  | settingsClear
  | settingsClosed
  | snapshotW (docs : List (String × WDraft))
  | snapshotV (docs : List (String × VDraft))
  | createW (now : Nat) (newId : String) (w : WDraft)
  | updateW (now : Nat) (w : WarehouseT)
  | deleteW (id : String)
  | createV (newId : String) (v : VDraft)
  | updateV (v : VesselT)
  | deleteV (id : String)
deriving DecidableEq, Repr

/-- One event handler, before the demo-persistence effect re-runs. -/
def step0 (s : AppState) : Ev → AppState
  | Ev.authChanged u =>
      -- page.tsx:134-137: only delivered when the boot effect registered
      -- the watcher; switches to cloud exactly when signed in.
      if s.watcherActive then
        { s with user := u, mode := if u then Mode.cloud else Mode.demo }
      else s
  | Ev.signInClick =>
      -- page.tsx:524-530 `doSignIn` + page.tsx:346 `onSignedIn`:
      -- requires a configuration (`ensureFirebase`), then sets the user
      -- and switches to cloud.
      if (loadFirebaseConfig s.injected s.cfgStore).isSome then
        { s with user := true, mode := Mode.cloud }
      else s
  | Ev.signOutClick =>
      -- page.tsx:531 `doSignOut` + page.tsx:347 `onSignedOut`: requires the
      -- `auth` handle, then clears the user and switches to demo.
      if s.fbReady then { s with user := false, mode := Mode.demo } else s
  | Ev.settingsSave cfg =>
      -- page.tsx:521 `save`: persist the configuration under `CFG_KEY`,
      -- then close the dialog (which re-runs `ensureFirebase`).
      applySettingsClosed { s with cfgStore := some cfg }
  | Ev.settingsClear =>
      -- page.tsx:522 `reset`: remove the persisted configuration.
      { s with cfgStore := none }
  | Ev.settingsClosed => applySettingsClosed s
  | Ev.snapshotW docs =>
      -- page.tsx:150-165: the subscription is live only in cloud mode with
      -- a `db` handle and a configuration; a snapshot replaces the whole
      -- in-memory collection with `{ id: d.id, ...d.data() }` per document.
      if s.mode = Mode.cloud ∧ s.fbReady
          ∧ (loadFirebaseConfig s.injected s.cfgStore).isSome then
        { s with warehouses := docs.map (fun p => p.2.withId p.1) }
      else s
  | Ev.snapshotV docs =>
      if s.mode = Mode.cloud ∧ s.fbReady
          ∧ (loadFirebaseConfig s.injected s.cfgStore).isSome then
        { s with vessels := docs.map (fun p => p.2.withId p.1) }
      else s
  | Ev.createW now newId w =>
      if s.mode = Mode.demo then
        { s with warehouses := createWarehouseDemo now newId w s.warehouses }
      else if s.fbReady then
        { s with remote := (createWarehouseCloud now s.remote w).1 }
      else s
  | Ev.updateW now w =>
      if s.mode = Mode.demo then
        { s with warehouses := updateWarehouseDemo now w s.warehouses }
      else if s.fbReady then
        { s with remote := updateWarehouseCloud now s.remote w }
      else s
  | Ev.deleteW id =>
      if s.mode = Mode.demo then
        { s with warehouses := deleteWarehouseDemo id s.warehouses }
      else if s.fbReady then
        { s with remote := deleteWarehouseCloud s.remote id }
      else s
  | Ev.createV newId v =>
      if s.mode = Mode.demo then
        { s with vessels := createVesselDemo newId v s.vessels }
      else if s.fbReady then
        { s with remote := (createVesselCloud s.remote v).1 }
      else s
  | Ev.updateV v =>
      if s.mode = Mode.demo then
        { s with vessels := updateVesselDemo v s.vessels }
      else if s.fbReady then
        { s with remote := updateVesselCloud s.remote v }
      else s
  | Ev.deleteV id =>
      if s.mode = Mode.demo then
        { s with vessels := deleteVesselDemo id s.vessels }
      else if s.fbReady then
        { s with remote := deleteVesselCloud s.remote id }
      else s

/-- One serialized event, followed by the demo-persistence effect. -/
def step (s : AppState) (e : Ev) : AppState := persistDemo (step0 s e)

/-- A whole event trace, applied in arrival order. -/
def run (s : AppState) (evs : List Ev) : AppState := evs.foldl step s

/-- Whether an event persists a backend configuration (the settings-dialog
Save button, page.tsx:521). -/
def savesCfg : Ev → Bool
  | Ev.settingsSave _ => true
  | _ => false

/-- No backend configuration is present (neither persisted nor injected);
consequently the boot effect registered no auth watcher and initialized no
`db`/`auth` handles, and the regime is Local. -/
def noCfg (s : AppState) : Prop :=
  s.cfgStore = none ∧ s.injected = none ∧ s.watcherActive = false
    ∧ s.fbReady = false ∧ s.mode = Mode.demo

/-- Whether an event is one of the six gateway CRUD calls. -/
def isCrud : Ev → Bool
  | Ev.createW _ _ _ => true
  | Ev.updateW _ _ => true
  | Ev.deleteW _ => true
  | Ev.createV _ _ => true
  | Ev.updateV _ => true
  | Ev.deleteV _ => true
  | _ => false

/-- Whether an event is a remote subscription snapshot delivery. -/
def isSnapshot : Ev → Bool
  | Ev.snapshotW _ => true
  | Ev.snapshotV _ => true
  | _ => false

/-- A concrete warehouse record used in the scenarios below. -/
def wLocal : WarehouseT :=
  { id := "wl", name := "Local A", location := "L", capacityTons := 10,
    usedTons := 5, status := WStatus.ok, lastUpdate := 1 }

/-- `wLocal` with a changed payload but the same id. -/
def wLocal2 : WarehouseT := { wLocal with usedTons := 6 }

/-- A warehouse record whose id matches nothing in the scenarios. -/
def wOther : WarehouseT := { wLocal with id := "zz", usedTons := 6 }

/-- A concrete vessel record used in the scenarios below. -/
def vLocal : VesselT :=
  { id := "vl", name := "Vessel L", cargo := "Corn", tonnage := 3,
    status := VStatus.atSea, etaPort := none, eta := none,
    lastPosition := none }

/-- A concrete warehouse draft living in the remote store's scenarios. -/
def wCloudDraft : WDraft :=
  { name := "Cloud W", location := "C", capacityTons := 20, usedTons := 4,
    status := WStatus.full, lastUpdate := 7 }

/-- A second warehouse draft, for follow-up edits. -/
def wCloudDraft2 : WDraft := { wCloudDraft with usedTons := 9 }

/-- A concrete vessel draft living in the remote store's scenarios. -/
def vCloudDraft : VDraft :=
  { name := "Cloud V", cargo := "Wheat", tonnage := 6,
    status := VStatus.loading, etaPort := none, eta := none,
    lastPosition := none }

/-- A second vessel draft, for follow-up edits. -/
def vCloudDraft2 : VDraft := { vCloudDraft with cargo := "Barley" }

/-- A concrete backend configuration. -/
def cfg0 : FirebaseConfig :=
  { apiKey := "k", authDomain := "d", projectId := "p", orgKey := "acme" }

/-- An empty remote store. -/
def remote0 : Remote := { nextId := 0, warehousesCol := [], vesselsCol := [] }

/-- Boot with a persisted Local record set `([wLocal], [vLocal])`, a
persisted backend configuration, and an empty remote store. -/
def c1Start : AppState :=
  boot 0 (some ([wLocal], [vLocal])) (some cfg0) none remote0

/-- Sign in, receive one Shared snapshot, sign out — with no remote write. -/
def c1Trace : List Ev :=
  [Ev.authChanged true, Ev.snapshotW [("d0", wCloudDraft)],
   Ev.authChanged false]

/-- The state after running `c1Trace` from `c1Start`. -/
def c1Final : AppState := run c1Start c1Trace

/-- Two Local-regime mutations. -/
def c6Trace : List Ev := [Ev.createW 2 "n1" wCloudDraft, Ev.deleteW "wl"]

/-- A signed-in Shared-regime state. -/
def sCloud : AppState :=
  { mode := Mode.cloud, warehouses := [wLocal], vessels := [vLocal],
    localStore := some ([wLocal], [vLocal]), cfgStore := some cfg0,
    injected := none, user := true, watcherActive := true, fbReady := true,
    orgKey := "acme", remote := remote0 }

/-- Looking a key up in an association list extended by a fresh entry finds
that entry. -/
theorem find_key_append_self {α : Type} (l : List (String × α)) (id : String)
    (d : α) (h : ∀ p ∈ l, p.1 ≠ id) :
    (l ++ [(id, d)]).find? (fun p => p.1 == id) = some (id, d) := by
  induction l with
  | nil => simp [List.find?]
  | cons a t ih =>
      have ha : (a.1 == id) = false := beq_eq_false_iff_ne.mpr (h a (by simp))
      simp only [List.cons_append, List.find?_cons, ha]
      exact ih (fun p hp => h p (by simp [hp]))

/-- Overwriting the data at a key present only in the freshly appended entry
rewrites exactly that entry. -/
theorem map_update_fresh {α : Type} (l : List (String × α)) (id : String)
    (d d2 : α) (h : ∀ p ∈ l, p.1 ≠ id) :
    (l ++ [(id, d)]).map (fun p => if p.1 = id then (id, d2) else p)
      = l ++ [(id, d2)] := by
  induction l with
  | nil => simp
  | cons a t ih =>
      have ha : a.1 ≠ id := h a (by simp)
      simp only [List.cons_append, List.map_cons, if_neg ha]
      rw [ih (fun p hp => h p (by simp [hp]))]

/-- Appending an entry under a different key does not change a lookup. -/
theorem find_key_append_ne {α : Type} (l : List (String × α)) (id j : String)
    (d : α) (hj : j ≠ id) :
    (l ++ [(id, d)]).find? (fun p => p.1 == j)
      = l.find? (fun p => p.1 == j) := by
  rw [List.find?_append]
  have hij : (id == j) = false := beq_eq_false_iff_ne.mpr (Ne.symm hj)
  have h2 : [(id, d)].find? (fun p => p.1 == j) = none := by
    simp [List.find?, hij]
  rw [h2]
  cases l.find? (fun p => p.1 == j) <;> rfl

/-- Any event other than a settings Save preserves the
no-backend-configuration state, and with it the Local regime. -/
theorem step_noCfg (s : AppState) (e : Ev) (hs : noCfg s)
    (he : savesCfg e = false) : noCfg (step s e) := by
  obtain ⟨h1, h2, h3, h4, h5⟩ := hs
  cases e <;>
    simp_all [step, step0, savesCfg, persistDemo, applySettingsClosed,
      loadFirebaseConfig, noCfg]

/-- A whole trace of non-Save events preserves the
no-backend-configuration state. -/
theorem run_noCfg (s : AppState) (evs : List Ev) (hs : noCfg s)
    (hno : ∀ e ∈ evs, savesCfg e = false) : noCfg (run s evs) := by
  induction evs generalizing s with
  | nil => exact hs
  | cons e t ih =>
      exact ih (step s e) (step_noCfg s e hs (hno e (by simp)))
        (fun x hx => hno x (by simp [hx]))

/-- The regime right after boot is Local, for every combination of stored
data, configuration and remote contents. -/
theorem boot_mode_demo (t1 : Nat)
    (saved1 : Option (List WarehouseT × List VesselT))
    (persisted injected : Option FirebaseConfig) (r1 : Remote) :
    (boot t1 saved1 persisted injected r1).mode = Mode.demo := by
  simp [boot, persistDemo]

/-- Boot with no persisted and no injected configuration yields the
no-backend-configuration state. -/
theorem boot_noCfg (t1 : Nat)
    (saved1 : Option (List WarehouseT × List VesselT)) (r1 : Remote) :
    noCfg (boot t1 saved1 none none r1) := by
  simp [boot, persistDemo, loadFirebaseConfig, noCfg]

/-- A gateway CRUD event in the Local regime keeps the regime Local and
leaves the local store holding exactly the in-memory collections. -/
theorem step_crud_demo (s : AppState) (e : Ev) (hm : s.mode = Mode.demo)
    (hc : isCrud e = true) :
    (step s e).mode = Mode.demo ∧
    (step s e).localStore = some ((step s e).warehouses, (step s e).vessels) := by
  cases e <;> simp_all [step, step0, isCrud, persistDemo]

/-- C1 (code bug): starting from the Local record set `([wLocal], [vLocal])`,
signing in, receiving one Shared snapshot and signing out — with no remote
write — does NOT restore the Local record set.  After sign-out the regime is
back to Local, but the in-memory view still shows the Shared snapshot, and
the re-running demo-persistence effect has overwritten the Local store's
last-persisted set with that Shared data, contradicting the claimed
no-cross-contamination guarantee. -/
theorem C1_sign_out_keeps_shared_and_overwrites_local :
    c1Final.mode = Mode.demo ∧
    c1Final.warehouses = [wCloudDraft.withId "d0"] ∧
    c1Final.warehouses ≠ [wLocal] ∧
    c1Final.localStore = some ([wCloudDraft.withId "d0"], [vLocal]) ∧
    c1Final.localStore ≠ some ([wLocal], [vLocal]) := by
  decide

/-- C2 (counterexample): a Shared-regime create does not report the newly
assigned document id to its caller.  On the empty remote store, `addDoc`
assigns an id, yet the gateway's `createWarehouse` returns no value, so its
result differs from that id. -/
theorem C2_create_returns_no_id_cex :
    (createWarehouseCloud 5 remote0 wCloudDraft).2 = none ∧
    (createWarehouseCloud 5 remote0 wCloudDraft).2
      ≠ some ((addDocW remote0 { wCloudDraft with lastUpdate := 5 }).2) := by
  decide

/-- C2 (amended): for both record kinds, the remote-store primitive `addDoc`
does report the newly assigned document id synchronously to its immediate
caller — the gateway — and an update issued with that id targets exactly
that document, even before any snapshot; but the gateway's
`createWarehouse` and `createVessel` discard the id and return nothing to
their own caller. -/
theorem C2_create_id_amended (r : Remote) (w w2 : WDraft) (vd vd2 : VDraft)
    (now now2 : Nat)
    (hfreshW : ∀ p ∈ r.warehousesCol, p.1 ≠ freshDocId r.nextId)
    (hfreshV : ∀ p ∈ r.vesselsCol, p.1 ≠ freshDocId r.nextId) :
    ((addDocW r { w with lastUpdate := now }).2 = freshDocId r.nextId ∧
     createWarehouseCloud now r w
       = ((addDocW r { w with lastUpdate := now }).1, none) ∧
     lookupW (addDocW r { w with lastUpdate := now }).1 (freshDocId r.nextId)
       = some { w with lastUpdate := now } ∧
     lookupW (updateWarehouseCloud now2 (addDocW r { w with lastUpdate := now }).1
         (w2.withId (freshDocId r.nextId))) (freshDocId r.nextId)
       = some { w2 with lastUpdate := now2 } ∧
     ∀ j, j ≠ freshDocId r.nextId →
       lookupW (updateWarehouseCloud now2 (addDocW r { w with lastUpdate := now }).1
           (w2.withId (freshDocId r.nextId))) j
         = lookupW (addDocW r { w with lastUpdate := now }).1 j) ∧
    ((addDocV r vd).2 = freshDocId r.nextId ∧
     createVesselCloud r vd = ((addDocV r vd).1, none) ∧
     lookupV (addDocV r vd).1 (freshDocId r.nextId) = some vd ∧
     lookupV (updateVesselCloud (addDocV r vd).1
         (vd2.withId (freshDocId r.nextId))) (freshDocId r.nextId)
       = some vd2 ∧
     ∀ j, j ≠ freshDocId r.nextId →
       lookupV (updateVesselCloud (addDocV r vd).1
           (vd2.withId (freshDocId r.nextId))) j
         = lookupV (addDocV r vd).1 j) := by
  refine ⟨⟨rfl, rfl, ?_, ?_, ?_⟩, ⟨rfl, rfl, ?_, ?_, ?_⟩⟩
  · unfold lookupW addDocW
    simp only
    rw [find_key_append_self _ _ _ hfreshW]
    rfl
  · unfold updateWarehouseCloud updateDocW lookupW addDocW WDraft.withId
    simp only
    rw [show ({ w2 with lastUpdate := now2 } : WDraft)
        = { ((WDraft.withId w2 (freshDocId r.nextId)).toDraft) with
              lastUpdate := now2 } from rfl]
    rw [map_update_fresh _ _ _ _ hfreshW]
    rw [find_key_append_self _ _ _ hfreshW]
    rfl
  · intro j hj
    unfold updateWarehouseCloud updateDocW lookupW addDocW WDraft.withId
    simp only
    rw [map_update_fresh _ _ _ _ hfreshW]
    rw [find_key_append_ne _ _ _ _ hj, find_key_append_ne _ _ _ _ hj]
  · unfold lookupV addDocV
    simp only
    rw [find_key_append_self _ _ _ hfreshV]
    rfl
  · unfold updateVesselCloud updateDocV lookupV addDocV VDraft.withId
    simp only
    rw [show (vd2 : VDraft)
        = (VDraft.withId vd2 (freshDocId r.nextId)).toDraft from rfl]
    rw [map_update_fresh _ _ _ _ hfreshV]
    rw [find_key_append_self _ _ _ hfreshV]
    rfl
  · intro j hj
    unfold updateVesselCloud updateDocV lookupV addDocV VDraft.withId
    simp only
    rw [map_update_fresh _ _ _ _ hfreshV]
    rw [find_key_append_ne _ _ _ _ hj, find_key_append_ne _ _ _ _ hj]

/-- C2 (witness): the amended statement at the empty remote store, for a
warehouse create and for a vessel create. -/
theorem C2_create_id_amended_witness :
    (addDocW remote0 { wCloudDraft with lastUpdate := 5 }).2
      = freshDocId remote0.nextId ∧
    createWarehouseCloud 5 remote0 wCloudDraft
      = ((addDocW remote0 { wCloudDraft with lastUpdate := 5 }).1, none) ∧
    lookupW (addDocW remote0 { wCloudDraft with lastUpdate := 5 }).1
        (freshDocId remote0.nextId)
      = some { wCloudDraft with lastUpdate := 5 } ∧
    lookupW (updateWarehouseCloud 6
        (addDocW remote0 { wCloudDraft with lastUpdate := 5 }).1
        (wCloudDraft2.withId (freshDocId remote0.nextId)))
        (freshDocId remote0.nextId)
      = some { wCloudDraft2 with lastUpdate := 6 } ∧
    lookupW (updateWarehouseCloud 6
        (addDocW remote0 { wCloudDraft with lastUpdate := 5 }).1
        (wCloudDraft2.withId (freshDocId remote0.nextId))) "other"
      = lookupW (addDocW remote0 { wCloudDraft with lastUpdate := 5 }).1
          "other" ∧
    (addDocV remote0 vCloudDraft).2 = freshDocId remote0.nextId ∧
    createVesselCloud remote0 vCloudDraft
      = ((addDocV remote0 vCloudDraft).1, none) ∧
    lookupV (addDocV remote0 vCloudDraft).1 (freshDocId remote0.nextId)
      = some vCloudDraft ∧
    lookupV (updateVesselCloud (addDocV remote0 vCloudDraft).1
        (vCloudDraft2.withId (freshDocId remote0.nextId)))
        (freshDocId remote0.nextId)
      = some vCloudDraft2 ∧
    lookupV (updateVesselCloud (addDocV remote0 vCloudDraft).1
        (vCloudDraft2.withId (freshDocId remote0.nextId))) "other"
      = lookupV (addDocV remote0 vCloudDraft).1 "other" := by
  have h := C2_create_id_amended remote0 wCloudDraft wCloudDraft2 vCloudDraft
    vCloudDraft2 5 6 (by simp [remote0]) (by simp [remote0])
  exact ⟨h.1.1, h.1.2.1, h.1.2.2.1, h.1.2.2.2.1,
    h.1.2.2.2.2 "other" (by decide), h.2.1, h.2.2.1, h.2.2.2.1,
    h.2.2.2.2.1, h.2.2.2.2.2 "other" (by decide)⟩

/-- C3 (counterexample): at `orgKey = "acme"`, the adapter's collection paths
are not the claimed `tenants/acme/storageFacilities` /
`tenants/acme/vessels` / `tenants/acme/healthchecks`. -/
theorem C3_tenant_paths_cex :
    ¬((colRefs "acme").1 = "tenants/acme/storageFacilities" ∧
      (colRefs "acme").2.1 = "tenants/acme/vessels" ∧
      (colRefs "acme").2.2 = "tenants/acme/healthchecks") := by
  decide

/-- C3 (amended): for every `orgKey` the adapter addresses the three
per-tenant collections at `orgs/{orgKey}/warehouses`,
`orgs/{orgKey}/vessels` and `orgs/{orgKey}/healthchecks`, and the
per-document paths used by update/delete and the healthcheck read extend
those collection paths. -/
theorem C3_org_paths_amended (orgKey docId : String) :
    colRefs orgKey = ("orgs/" ++ orgKey ++ "/warehouses",
      "orgs/" ++ orgKey ++ "/vessels", "orgs/" ++ orgKey ++ "/healthchecks") ∧
    warehouseDocPath orgKey docId = (colRefs orgKey).1 ++ "/" ++ docId ∧
    vesselDocPath orgKey docId = (colRefs orgKey).2.1 ++ "/" ++ docId ∧
    healthcheckDocPath orgKey docId = (colRefs orgKey).2.2 ++ "/" ++ docId := by
  refine ⟨rfl, ?_, ?_, ?_⟩
  · show "orgs/" ++ orgKey ++ "/warehouses/" ++ docId
      = (("orgs/" ++ orgKey ++ "/warehouses") ++ "/") ++ docId
    rw [String.append_assoc ("orgs/" ++ orgKey) "/warehouses" "/"]
    rfl
  · show "orgs/" ++ orgKey ++ "/vessels/" ++ docId
      = (("orgs/" ++ orgKey ++ "/vessels") ++ "/") ++ docId
    rw [String.append_assoc ("orgs/" ++ orgKey) "/vessels" "/"]
    rfl
  · show "orgs/" ++ orgKey ++ "/healthchecks/" ++ docId
      = (("orgs/" ++ orgKey ++ "/healthchecks") ++ "/") ++ docId
    rw [String.append_assoc ("orgs/" ++ orgKey) "/healthchecks" "/"]
    rfl

/-- C3 (witness): the amended paths at `orgKey = "acme"`, `docId = "d0"`. -/
theorem C3_org_paths_amended_witness :
    colRefs "acme" = ("orgs/acme/warehouses", "orgs/acme/vessels",
      "orgs/acme/healthchecks") ∧
    warehouseDocPath "acme" "d0" = (colRefs "acme").1 ++ "/" ++ "d0" := by
  have h := C3_org_paths_amended "acme" "d0"
  exact ⟨h.1.trans (by decide), h.2.1⟩

/-- C4: the initial regime is always Local, for every combination of stored
data, configuration and remote contents; and for every event trace
(auth callbacks, sign-in/out clicks, settings changes other than persisting
a configuration, snapshots, CRUD calls) run while no backend configuration
exists — neither persisted nor injected — the regime never becomes Shared,
independent of auth state. -/
theorem C4_no_config_stays_local (bootTime : Nat)
    (saved : Option (List WarehouseT × List VesselT)) (r0 : Remote)
    (evs : List Ev) (hnosave : ∀ e ∈ evs, savesCfg e = false) :
    (∀ (t1 : Nat) (saved1 : Option (List WarehouseT × List VesselT))
        (persisted injected : Option FirebaseConfig) (r1 : Remote),
      (boot t1 saved1 persisted injected r1).mode = Mode.demo) ∧
    (run (boot bootTime saved none none r0) evs).mode = Mode.demo := by
  refine ⟨boot_mode_demo, ?_⟩
  exact (run_noCfg _ evs (boot_noCfg bootTime saved r0) hnosave).2.2.2.2

/-- C4 (witness): a sign-in attempt, an auth callback and a create, run with
no configuration anywhere, leave the regime Local; and boot with a
configuration still starts Local. -/
theorem C4_no_config_stays_local_witness :
    (boot 0 none (some cfg0) none remote0).mode = Mode.demo ∧
    (run (boot 0 none none none remote0)
      [Ev.signInClick, Ev.authChanged true, Ev.createW 3 "n1" wCloudDraft]).mode
      = Mode.demo := by
  have h := C4_no_config_stays_local 0 none remote0
    [Ev.signInClick, Ev.authChanged true, Ev.createW 3 "n1" wCloudDraft]
    (by decide)
  exact ⟨h.1 0 none (some cfg0) none remote0, h.2⟩

/-- C5: the capacity-utilization function returns exactly 98 on
used = 7800, capacity = 8000, and for every used ≥ 0 and every capacity
(including 0 and capacity < used) its result lies in [0, 100]. -/
theorem C5_utilization_bounds : pct 7800 8000 = 98 ∧
    ∀ used cap : ℚ, 0 ≤ used → 0 ≤ pct used cap ∧ pct used cap ≤ 100 := by
  constructor
  · norm_num [pct, jsRound]
  · intro used cap h
    constructor
    · have hm : (0:ℚ) < max cap 1 := lt_of_lt_of_le one_pos (le_max_right cap 1)
      have h1 : (0:ℚ) ≤ used / max cap 1 * 100 :=
        mul_nonneg (div_nonneg h hm.le) (by norm_num)
      have h2 : (0:ℤ) ≤ jsRound (used / max cap 1 * 100) := by
        unfold jsRound
        exact Int.floor_nonneg.mpr (by linarith)
      exact le_min (by norm_num) h2
    · exact min_le_left _ _

/-- C5 (witness): the bounds at used = 9000, capacity = 0. -/
theorem C5_utilization_bounds_witness :
    pct 7800 8000 = 98 ∧ (0:ℚ) ≤ 9000 ∧ 0 ≤ pct 9000 0 ∧ pct 9000 0 ≤ 100 := by
  have h := C5_utilization_bounds
  exact ⟨h.1, by norm_num, (h.2 9000 0 (by norm_num)).1,
    (h.2 9000 0 (by norm_num)).2⟩

/-- C6: every non-empty sequence of gateway CRUD events executed in the
Local regime keeps the regime Local and ends — as it does after each of its
prefixes, which are themselves such sequences — with the local store holding
exactly the in-memory warehouse and vessel collections, so loading the
persisted snapshot reproduces the in-memory record set (even including the
timestamp fields). -/
theorem C6_demo_round_trip (s : AppState) (evs : List Ev)
    (hm : s.mode = Mode.demo) (hcrud : ∀ e ∈ evs, isCrud e = true)
    (hne : evs ≠ []) :
    (run s evs).mode = Mode.demo ∧
    (run s evs).localStore = some ((run s evs).warehouses, (run s evs).vessels) := by
  induction evs generalizing s with
  | nil => exact absurd rfl hne
  | cons e t ih =>
      have h1 := step_crud_demo s e hm (hcrud e (by simp))
      cases t with
      | nil => simpa [run] using h1
      | cons e2 t2 =>
          have h2 := ih (step s e) h1.1 (fun x hx => hcrud x (by simp [hx]))
            (by simp)
          simpa [run] using h2

/-- C6 (witness): a create followed by a delete from the booted Local
state. -/
theorem C6_demo_round_trip_witness :
    (run c1Start c6Trace).mode = Mode.demo ∧
    (run c1Start c6Trace).localStore
      = some ((run c1Start c6Trace).warehouses, (run c1Start c6Trace).vessels) :=
  C6_demo_round_trip c1Start c6Trace (by decide) (by decide) (by decide)

/-- C7: in the Shared regime, every event that is not a subscription
snapshot — in particular every gateway create/update/delete, whatever the
remote call's outcome, since the cloud branches never touch the in-memory
state — leaves the in-memory warehouse and vessel collections unchanged;
only snapshot deliveries may change the in-memory view. -/
theorem C7_cloud_mutations_frame (s : AppState) (e : Ev)
    (hm : s.mode = Mode.cloud) (hs : isSnapshot e = false) :
    (step s e).warehouses = s.warehouses ∧ (step s e).vessels = s.vessels := by
  have ha : ∀ t : AppState, (applySettingsClosed t).warehouses = t.warehouses
      ∧ (applySettingsClosed t).vessels = t.vessels := by
    intro t
    unfold applySettingsClosed
    cases loadFirebaseConfig t.injected t.cfgStore <;> simp
  cases e <;>
    simp_all [step, step0, isSnapshot, persistDemo] <;>
    split_ifs <;> simp_all [ha]

/-- C7 (witness): a Shared-regime create leaves the in-memory collections
unchanged. -/
theorem C7_cloud_mutations_frame_witness :
    (step sCloud (Ev.createW 4 "n2" wCloudDraft)).warehouses
      = sCloud.warehouses ∧
    (step sCloud (Ev.createW 4 "n2" wCloudDraft)).vessels = sCloud.vessels :=
  C7_cloud_mutations_frame sCloud (Ev.createW 4 "n2" wCloudDraft) rfl rfl

/-- C8: a Local-regime update leaves the collection completely unchanged
when no record carries the incoming record's id; in general it maps every
position with a matching id to the incoming record with its `lastUpdate`
refreshed and leaves every other position untouched, preserving length. -/
theorem C8_update_demo (now : Nat) (w : WarehouseT) (p : List WarehouseT) :
    ((∀ x ∈ p, x.id ≠ w.id) → updateWarehouseDemo now w p = p) ∧
    (updateWarehouseDemo now w p).length = p.length ∧
    ∀ i : Nat, (updateWarehouseDemo now w p)[i]? =
      (p[i]?).map (fun x =>
        if x.id = w.id then { w with lastUpdate := now } else x) := by
  refine ⟨?_, by simp [updateWarehouseDemo], ?_⟩
  · intro h
    unfold updateWarehouseDemo
    induction p with
    | nil => rfl
    | cons a t ih =>
        simp only [List.map_cons, if_neg (h a (by simp))]
        rw [ih (fun x hx => h x (by simp [hx]))]
  · intro i
    simp [updateWarehouseDemo, List.getElem?_map]

/-- C8 (witness): updating with an absent id is the identity on `[wLocal]`;
updating with a present id rewrites position 0. -/
theorem C8_update_demo_witness :
    (∀ x ∈ [wLocal], x.id ≠ wOther.id) ∧
    updateWarehouseDemo 9 wOther [wLocal] = [wLocal] ∧
    (updateWarehouseDemo 9 wLocal2 [wLocal]).length = [wLocal].length ∧
    (updateWarehouseDemo 9 wLocal2 [wLocal])[0]? =
      ([wLocal][0]?).map (fun x =>
        if x.id = wLocal2.id then { wLocal2 with lastUpdate := 9 } else x) :=
  ⟨by decide, (C8_update_demo 9 wOther [wLocal]).1 (by decide),
    (C8_update_demo 9 wLocal2 [wLocal]).2.1,
    (C8_update_demo 9 wLocal2 [wLocal]).2.2 0⟩

/-- C9: a Local-regime delete removes exactly the records with the given id
(for warehouses and for vessels alike), is idempotent, and deleting a
nonexistent id is a no-op that returns the collection — records and
timestamps — literally unchanged. -/
theorem C9_delete_noop_idempotent (id : String) (p : List WarehouseT)
    (q : List VesselT) :
    ((∀ x ∈ p, x.id ≠ id) → deleteWarehouseDemo id p = p) ∧
    (∀ x, x ∈ deleteWarehouseDemo id p ↔ x ∈ p ∧ x.id ≠ id) ∧
    deleteWarehouseDemo id (deleteWarehouseDemo id p)
      = deleteWarehouseDemo id p ∧
    ((∀ x ∈ q, x.id ≠ id) → deleteVesselDemo id q = q) ∧
    (∀ x, x ∈ deleteVesselDemo id q ↔ x ∈ q ∧ x.id ≠ id) ∧
    deleteVesselDemo id (deleteVesselDemo id q) = deleteVesselDemo id q := by
  refine ⟨?_, ?_, ?_, ?_, ?_, ?_⟩
  · intro h
    unfold deleteWarehouseDemo
    rw [List.filter_eq_self.mpr]
    intro x hx
    simpa using h x hx
  · intro x
    simp [deleteWarehouseDemo, List.mem_filter]
  · simp [deleteWarehouseDemo, List.filter_filter]
  · intro h
    unfold deleteVesselDemo
    rw [List.filter_eq_self.mpr]
    intro x hx
    simpa using h x hx
  · intro x
    simp [deleteVesselDemo, List.mem_filter]
  · simp [deleteVesselDemo, List.filter_filter]

/-- C9 (witness): deleting the absent id "zz" from `[wLocal]` and `[vLocal]`
is a no-op; double deletion equals single deletion; membership matches. -/
theorem C9_delete_noop_idempotent_witness :
    deleteWarehouseDemo "zz" [wLocal] = [wLocal] ∧
    (wLocal ∈ deleteWarehouseDemo "zz" [wLocal]
      ↔ wLocal ∈ [wLocal] ∧ wLocal.id ≠ "zz") ∧
    deleteWarehouseDemo "zz" (deleteWarehouseDemo "zz" [wLocal])
      = deleteWarehouseDemo "zz" [wLocal] ∧
    deleteVesselDemo "zz" [vLocal] = [vLocal] := by
  have h := C9_delete_noop_idempotent "zz" [wLocal] [vLocal]
  exact ⟨h.1 (by decide), h.2.1 wLocal, h.2.2.1, h.2.2.2.1 (by decide)⟩

/-- C10: a Local-regime create prepends the new record at the head of the
in-memory list, assigning it the freshly generated id and — for warehouses
only — a fresh `lastUpdate` timestamp (vessels carry their draft data over
unchanged, having no such field), and leaves all existing records unchanged
as the tail. -/
theorem C10_create_prepends (now : Nat) (newId : String) (w : WDraft)
    (v : VDraft) (p : List WarehouseT) (q : List VesselT) :
    (createWarehouseDemo now newId w p).length = p.length + 1 ∧
    (createWarehouseDemo now newId w p).head?
      = some { w.withId newId with lastUpdate := now } ∧
    (createWarehouseDemo now newId w p).tail = p ∧
    ({ w.withId newId with lastUpdate := now } : WarehouseT).id = newId ∧
    ({ w.withId newId with lastUpdate := now } : WarehouseT).lastUpdate = now ∧
    ({ w.withId newId with lastUpdate := now } : WarehouseT).name = w.name ∧
    (createVesselDemo newId v q).length = q.length + 1 ∧
    (createVesselDemo newId v q).head? = some (v.withId newId) ∧
    (createVesselDemo newId v q).tail = q ∧
    (v.withId newId).id = newId ∧
    (v.withId newId).toDraft = v := by
  refine ⟨?_, rfl, rfl, rfl, rfl, rfl, ?_, rfl, rfl, rfl, rfl⟩ <;>
    simp [createWarehouseDemo, createVesselDemo]

/-- C10 (witness): creating on top of `[wLocal]` and `[vLocal]`. -/
theorem C10_create_prepends_witness :
    (createWarehouseDemo 9 "n1" wCloudDraft [wLocal]).head?
      = some { wCloudDraft.withId "n1" with lastUpdate := 9 } ∧
    (createWarehouseDemo 9 "n1" wCloudDraft [wLocal]).tail = [wLocal] ∧
    (createVesselDemo "n2" vLocal.toDraft [vLocal]).tail = [vLocal] := by
  have h := C10_create_prepends 9 "n1" wCloudDraft vLocal.toDraft [wLocal]
    [vLocal]
  exact ⟨h.2.1, h.2.2.1, h.2.2.2.2.2.2.2.2.1⟩

end OpsStatus
